import Mathlib

/-!
Verification of the HotBottle motion classifier and render loop.

The development shallowly embeds the TypeScript sources:

* `src/app/page.tsx` — `magnitude`, `computePitchRoll`, `playPour`, `onMotion`
  (the motion-to-gesture classifier and its audio debounce);
* `src/app/Components/Scene.tsx` — the active image-sequence render loop
  (`tick`);
* the three.js scene variants (`part_001`, `part_002`) — their `animate`
  frame callbacks (`animateBottle`, `animateModel`).

Machine floats are modelled by `ℝ` for the trigonometric pitch computation
and by `ℚ` for the classifier state machine, where every operation the code
performs (addition, absolute value, comparison) is exact.
-/

/-- The `GVec` record of `page.tsx`: a 3-axis gravity-inclusive acceleration
sample with components `x`, `y`, `z`. -/
structure GVec (α : Type) where
  x : α
  y : α
  z : α

/-- Result record of `computePitchRoll` (fields `pitchDeg`, `rollDeg`). -/
structure PitchRoll where
  pitchDeg : ℝ
  rollDeg : ℝ

/-- `magnitude(g)` from `page.tsx` line 8: the Euclidean norm
`Math.sqrt(g.x*g.x + g.y*g.y + g.z*g.z)`. -/
noncomputable def magnitude (g : GVec ℝ) : ℝ :=
  Real.sqrt (g.x * g.x + g.y * g.y + g.z * g.z)

/-- The normalization divisor `const m = magnitude(g) || 1` of
`computePitchRoll` (line 14): JavaScript `||` replaces a zero magnitude by 1. -/
noncomputable def normDivisor (g : GVec ℝ) : ℝ :=
  if magnitude g = 0 then 1 else magnitude g

/-- Model of JavaScript `Math.atan2 y x` (C convention). Only the `x ≥ 0`
half-plane is exercised by `computePitchRoll`, whose second argument is a
square root. `Math.atan2(0, 0) = 0` in JavaScript, matching the final branch. -/
noncomputable def atan2 (y x : ℝ) : ℝ :=
  if 0 < x then Real.arctan (y / x)
  else if x < 0 then
    (if 0 ≤ y then Real.arctan (y / x) + Real.pi
     else Real.arctan (y / x) - Real.pi)
  else
    (if 0 < y then Real.pi / 2
     else if y < 0 then -(Real.pi / 2)
     else 0)

/-- `computePitchRoll(g)` from `page.tsx` lines 12–23: normalize `g` by
`normDivisor`, then `pitchRad = atan2(-gx, sqrt(gy*gy + gz*gz))`,
`rollRad = atan2(gy, gz)`, both converted to degrees by `* 180 / π`. -/
noncomputable def computePitchRoll (g : GVec ℝ) : PitchRoll :=
  let m := normDivisor g
  let gx := g.x / m
  let gy := g.y / m
  let gz := g.z / m
  let pitchRad := atan2 (-gx) (Real.sqrt (gy * gy + gz * gz))
  let rollRad := atan2 gy gz
  { pitchDeg := pitchRad * 180 / Real.pi, rollDeg := rollRad * 180 / Real.pi }

-- Basic evaluation lemmas for the pitch pipeline.

lemma atan2_zero_one : atan2 0 1 = 0 := by
  simp [atan2, Real.arctan_zero]

lemma atan2_one_zero : atan2 1 0 = Real.pi / 2 := by
  simp [atan2]

lemma magnitude_001 : magnitude ⟨0, 0, 1⟩ = 1 := by
  simp [magnitude]

lemma magnitude_neg100 : magnitude ⟨-1, 0, 0⟩ = 1 := by
  simp [magnitude]

lemma atan2_zero_zero : atan2 0 0 = 0 := by
  simp [atan2]

lemma atan2_pos_zero {y : ℝ} (hy : 0 < y) : atan2 y 0 = Real.pi / 2 := by
  simp [atan2, hy]

lemma atan2_neg_zero {y : ℝ} (hy : y < 0) : atan2 y 0 = -(Real.pi / 2) := by
  simp [atan2, hy, asymm hy]

lemma atan2_pos_x {y x : ℝ} (hx : 0 < x) : atan2 y x = Real.arctan (y / x) :=
  if_pos hx

lemma computePitchRoll_pitchDeg (g : GVec ℝ) :
    (computePitchRoll g).pitchDeg =
      atan2 (-(g.x / normDivisor g))
        (Real.sqrt ((g.y / normDivisor g) * (g.y / normDivisor g) +
          (g.z / normDivisor g) * (g.z / normDivisor g))) * 180 / Real.pi := rfl

lemma deg_gt_sixty {r : ℝ} : 60 < r * 180 / Real.pi ↔ Real.pi / 3 < r := by
  rw [lt_div_iff₀ Real.pi_pos]
  constructor <;> intro h <;> linarith

lemma arctan_sqrt_three : Real.arctan (Real.sqrt 3) = Real.pi / 3 := by
  have h1 : -(Real.pi / 2) < Real.pi / 3 := by linarith [Real.pi_pos]
  have h2 : Real.pi / 3 < Real.pi / 2 := by linarith [Real.pi_pos]
  rw [← Real.tan_pi_div_three, Real.arctan_tan h1 h2]

lemma pi_div_three_lt_arctan {u : ℝ} :
    Real.pi / 3 < Real.arctan u ↔ Real.sqrt 3 < u := by
  rw [← arctan_sqrt_three]
  exact Real.arctan_strictMono.lt_iff_lt

lemma magnitude_eq_zero {g : GVec ℝ} (h : magnitude g = 0) :
    g.x = 0 ∧ g.y = 0 ∧ g.z = 0 := by
  rw [magnitude, Real.sqrt_eq_zero'] at h
  refine ⟨mul_self_eq_zero.mp ?_, mul_self_eq_zero.mp ?_, mul_self_eq_zero.mp ?_⟩ <;>
    nlinarith [mul_self_nonneg g.x, mul_self_nonneg g.y, mul_self_nonneg g.z]

lemma sqrt3_mul_lt_neg_iff {x q : ℝ} (hq : 0 < q) :
    Real.sqrt 3 * Real.sqrt q < -x ↔ (x < 0 ∧ 3 * q < x * x) := by
  have h3q : (Real.sqrt 3 * Real.sqrt q) * (Real.sqrt 3 * Real.sqrt q) = 3 * q := by
    rw [mul_mul_mul_comm, Real.mul_self_sqrt (by norm_num), Real.mul_self_sqrt hq.le]
  have hpos : 0 < Real.sqrt 3 * Real.sqrt q := by positivity
  constructor
  · intro h
    have hx : x < 0 := by nlinarith
    refine ⟨hx, ?_⟩
    nlinarith
  · rintro ⟨hx, h⟩
    by_contra hcon
    push_neg at hcon
    have := mul_self_le_mul_self (by linarith : (0 : ℝ) ≤ -x) hcon
    nlinarith

/-- The pouring threshold of `onMotion` (`pitchDeg > 60`) characterized
algebraically on the raw gravity vector: the normalization and the arctangent
cancel out, leaving `x < 0` together with `x^2` dominating `3 (y^2 + z^2)`. -/
theorem pitch_gt_sixty_iff (g : GVec ℝ) :
    60 < (computePitchRoll g).pitchDeg ↔
      (g.x < 0 ∧ 3 * (g.y * g.y + g.z * g.z) < g.x * g.x) := by
  rw [computePitchRoll_pitchDeg, deg_gt_sixty]
  rcases eq_or_ne (magnitude g) 0 with h0 | h0
  · obtain ⟨hx, hy, hz⟩ := magnitude_eq_zero h0
    rw [hx, hy, hz]
    simp only [normDivisor, h0, if_pos, zero_div, neg_zero, mul_zero, zero_add,
      Real.sqrt_zero, atan2_zero_zero]
    exact iff_of_false (by linarith [Real.pi_pos]) (by norm_num)
  · have hm : 0 < magnitude g := lt_of_le_of_ne (Real.sqrt_nonneg _) (Ne.symm h0)
    have hnd : normDivisor g = magnitude g := if_neg h0
    have hmm : magnitude g * magnitude g = g.x * g.x + (g.y * g.y + g.z * g.z) :=
      by
        rw [magnitude, Real.mul_self_sqrt (add_nonneg (add_nonneg (mul_self_nonneg _)
          (mul_self_nonneg _)) (mul_self_nonneg _))]
        ring
    have hq0 : (0 : ℝ) ≤ g.y * g.y + g.z * g.z :=
      add_nonneg (mul_self_nonneg _) (mul_self_nonneg _)
    have hsq : Real.sqrt ((g.y / normDivisor g) * (g.y / normDivisor g) +
        (g.z / normDivisor g) * (g.z / normDivisor g)) =
        Real.sqrt (g.y * g.y + g.z * g.z) / magnitude g := by
      rw [hnd, show (g.y / magnitude g) * (g.y / magnitude g) +
          (g.z / magnitude g) * (g.z / magnitude g) =
          (g.y * g.y + g.z * g.z) / (magnitude g * magnitude g) by field_simp,
        Real.sqrt_div hq0, Real.sqrt_mul_self hm.le]
    rw [hsq, hnd]
    rcases eq_or_lt_of_le hq0 with hq | hq
    · have hsqz : Real.sqrt (g.y * g.y + g.z * g.z) = 0 := by
        rw [← hq, Real.sqrt_zero]
      have hx2 : 0 < g.x * g.x := by nlinarith
      have hxne : g.x ≠ 0 := fun h => by rw [h] at hx2; simp at hx2
      rw [hsqz, zero_div]
      rcases lt_or_gt_of_ne hxne with hxlt | hxgt
      · have harg : 0 < -(g.x / magnitude g) := by
          have : g.x / magnitude g < 0 := div_neg_of_neg_of_pos hxlt hm
          linarith
        rw [atan2_pos_zero harg]
        exact iff_of_true (by linarith [Real.pi_pos]) ⟨hxlt, by nlinarith⟩
      · have harg : -(g.x / magnitude g) < 0 := by
          have : 0 < g.x / magnitude g := div_pos hxgt hm
          linarith
        rw [atan2_neg_zero harg]
        exact iff_of_false (by intro h; nlinarith [Real.pi_pos])
          (fun hc => absurd hc.1 (by linarith))
    · have hsqpos : 0 < Real.sqrt (g.y * g.y + g.z * g.z) := Real.sqrt_pos.mpr hq
      have hspos : 0 < Real.sqrt (g.y * g.y + g.z * g.z) / magnitude g :=
        div_pos hsqpos hm
      rw [atan2_pos_x hspos,
        show -(g.x / magnitude g) / (Real.sqrt (g.y * g.y + g.z * g.z) / magnitude g) =
          -g.x / Real.sqrt (g.y * g.y + g.z * g.z) by field_simp; ring,
        pi_div_three_lt_arctan, lt_div_iff₀ hsqpos]
      constructor
      · intro h
        exact (sqrt3_mul_lt_neg_iff hq).mp (by linarith)
      · intro h
        linarith [(sqrt3_mul_lt_neg_iff hq).mpr h]

/-- Real-valued view of an exact rational gravity sample. -/
def toRealVec (g : GVec ℚ) : GVec ℝ :=
  ⟨(g.x : ℝ), (g.y : ℝ), (g.z : ℝ)⟩

/-- The pouring condition of `onMotion` (`page.tsx` line 138):
`pitchDeg > 60` on the sample's gravity vector. -/
def pouring (g : GVec ℚ) : Prop :=
  60 < (computePitchRoll (toRealVec g)).pitchDeg

lemma pouring_iff (g : GVec ℚ) :
    pouring g ↔ (g.x < 0 ∧ 3 * (g.y * g.y + g.z * g.z) < g.x * g.x) := by
  unfold pouring
  rw [pitch_gt_sixty_iff]
  simp only [toRealVec]
  constructor
  · rintro ⟨h1, h2⟩
    exact ⟨by exact_mod_cast h1, by exact_mod_cast h2⟩
  · rintro ⟨h1, h2⟩
    exact ⟨by exact_mod_cast h1, by exact_mod_cast h2⟩

instance pouringDecidable (g : GVec ℚ) : Decidable (pouring g) :=
  decidable_of_iff _ (pouring_iff g).symm

/-- The classifier's mutable state in `Home` (`page.tsx`): `lastGRef`,
`stillRef`, the local `lastStillCheck` of `startSensors`, `lastPlayRef`, and
whether `initAudio` populated `audioRef` / `audioCtxRef`. `attempts` counts
calls of `playPour` that passed the debounce check (playback attempts), and
`sounds` counts those that actually reached an audio back end. -/
structure ClassifierState where
  lastG : GVec ℚ
  still : Bool
  lastStillCheck : ℚ
  lastPlay : ℚ
  hasAudioEl : Bool
  hasAudioCtx : Bool
  attempts : ℕ
  sounds : ℕ

/-- One `devicemotion` event as `onMotion` sees it: the (possibly absent)
`accelerationIncludingGravity` object with nullable components, the
`performance.now()` reading, the `Date.now()` reading, and whether
`el.play()` would succeed on this event (autoplay policy oracle). -/
structure MotionEvent where
  ag : Option (GVec (Option ℚ))
  perfNow : ℚ
  wallNow : ℚ
  elOk : Bool

/-- `const g = { x: ag.x ?? 0, y: ag.y ?? 0, z: ag.z ?? 0 }`
(`page.tsx` line 115): null components are coerced to 0. -/
def coerceVec (a : GVec (Option ℚ)) : GVec ℚ :=
  ⟨a.x.getD 0, a.y.getD 0, a.z.getD 0⟩

/-- The L1 distance of `onMotion` lines 118–121. -/
def l1delta (g h : GVec ℚ) : ℚ :=
  |g.x - h.x| + |g.y - h.y| + |g.z - h.z|

/-- `playPour` from `page.tsx` lines 50–80: debounce on `Date.now()`, then
primary playback through the preloaded element, falling back to the WebAudio
beep; with neither subsystem available nothing audible happens. -/
def playPour (elOk : Bool) (s : ClassifierState) (now : ℚ) : ClassifierState :=
  if now - s.lastPlay < 1000 then s
  else
    let s1 := { s with lastPlay := now, attempts := s.attempts + 1 }
    if s1.hasAudioEl && elOk then { s1 with sounds := s1.sounds + 1 }
    else if s1.hasAudioCtx then { s1 with sounds := s1.sounds + 1 }
    else s1

/-- `onMotion` from `page.tsx` lines 110–141: discard events without
`accelerationIncludingGravity`; coerce null components; compute the L1 delta
against `lastGRef` and update it unconditionally; re-evaluate `stillRef` only
when more than 120 ms of `performance.now()` time passed since the last
check; finally trigger `playPour` when the pitch exceeds 60 degrees. -/
def onMotion (s : ClassifierState) (e : MotionEvent) : ClassifierState :=
  match e.ag with
  | none => s
  | some a =>
    let g := coerceVec a
    let delta := l1delta g s.lastG
    let s1 := { s with lastG := g }
    let s2 := if e.perfNow - s.lastStillCheck > 120
              then { s1 with still := decide (delta < 0.25), lastStillCheck := e.perfNow }
              else s1
    if pouring g then playPour e.elOk s2 e.wallNow else s2


/-- Per-frame scene state shared by the three.js `animate` loops: the
model's `rotation.y`, its `position.y`, and a count of `renderer.render`
calls (one per frame). -/
structure ModelScene where
  rotY : ℝ
  posY : ℝ
  renders : ℕ

/-- `animate` from `part_001` (procedural bottle scene, lines 92–101): when
`getIsStill()` returns true, advance the rotation by 0.005 and bob with
`Math.sin(t * 1.0) * 0.03`; there is no else branch, so a non-still frame
leaves rotation and position untouched; the scene renders every frame. -/
noncomputable def animateBottle (still : Bool) (t : ℝ) (s : ModelScene) : ModelScene :=
  if still then
    { rotY := s.rotY + 0.005, posY := Real.sin (t * 1.0) * 0.03, renders := s.renders + 1 }
  else
    { s with renders := s.renders + 1 }

/-- `animate` from `part_002` (GLB model scene, lines 162–179), once the
model has loaded with floor height `baseY`: when `getIsStill()` returns
true, advance the rotation and bob around `baseY`; otherwise reset
`position.y` to `baseY`; the scene renders every frame. -/
noncomputable def animateModel (baseY : ℝ) (still : Bool) (t : ℝ) (s : ModelScene) : ModelScene :=
  if still then
    { rotY := s.rotY + 0.005, posY := baseY + Real.sin (t * 1.0) * 0.03, renders := s.renders + 1 }
  else
    { s with posY := baseY, renders := s.renders + 1 }

/-- The `requestAnimationFrame` loop of `part_001`: frame `n` invokes the
stillness accessor afresh (`stillAt n`) and reads the clock (`tAt n`). -/
noncomputable def runBottle (stillAt : ℕ → Bool) (tAt : ℕ → ℝ) (s0 : ModelScene) : ℕ → ModelScene
  | 0 => s0
  | n + 1 => animateBottle (stillAt n) (tAt n) (runBottle stillAt tAt s0 n)

/-- Frame-advance state of the active `Scene.tsx` image-sequence loop: the
time accumulator `acc`, the `last` timestamp and the current `frame` index. -/
structure SlideshowState where
  acc : ℚ
  last : ℚ
  frame : ℕ

/-- `frameDur = 1000 / FPS` with `FPS = 24` (`Scene.tsx` line 30). -/
def frameDur : ℚ := 1000 / 24

/-- `tick` from the active `Scene.tsx` (lines 33–43). The component receives
`getIsStill` but this loop never invokes it; the `still` argument carries the
value the accessor would return on this frame and is unused, mirroring the
source. The `while (acc >= frameDur)` loop is rendered by its closed form:
it runs `⌊acc / frameDur⌋` times (and zero times when `acc < frameDur`). -/
def tick (still : Bool) (now : ℚ) (s : SlideshowState) : SlideshowState :=
  let acc := s.acc + (now - s.last)
  let k := (Rat.floor (acc / frameDur)).toNat
  { acc := acc - k * frameDur, last := now, frame := (s.frame + k) % 16 }

/-- A flat face-up sample `(0, 0, 1)` at the given clock readings, with the
audio element available, as in the C1 scenario. -/
def flatEv (p w : ℚ) : MotionEvent := ⟨some ⟨some 0, some 0, some 1⟩, p, w, true⟩

/-- The C1 scenario: 10 samples per second of `(0,0,1)` for 2 seconds. The
wall clock starts at 1000000 ms (any epoch value at least 1000 behaves the
same; `Date.now()` is far larger). -/
def c1Events : List MotionEvent :=
  [flatEv 100 1000100, flatEv 200 1000200, flatEv 300 1000300, flatEv 400 1000400,
   flatEv 500 1000500, flatEv 600 1000600, flatEv 700 1000700, flatEv 800 1000800,
   flatEv 900 1000900, flatEv 1000 1001000, flatEv 1100 1001100, flatEv 1200 1001200,
   flatEv 1300 1001300, flatEv 1400 1001400, flatEv 1500 1001500, flatEv 1600 1001600,
   flatEv 1700 1001700, flatEv 1800 1001800, flatEv 1900 1001900, flatEv 2000 1002000]

/-- The initial classifier state: `lastGRef` zero, `stillRef` true,
`lastStillCheck` and `lastPlayRef` zero, audio initialized by
`startSensors`, no playback attempts yet. -/
def c1Init : ClassifierState := ⟨⟨0, 0, 0⟩, true, 0, 0, true, true, 0, 0⟩

/-- The final C1 sample: `(-1, 0, 0.1)` (tipped forward), 100 ms after the
last flat sample. -/
def c1Tilt : MotionEvent := ⟨some ⟨some (-1), some 0, some (1/10)⟩, 2100, 1002100, true⟩

-- Helper lemmas about the embedded operations.

lemma onMotion_some (s : ClassifierState) (a : GVec (Option ℚ)) (p w : ℚ) (ok : Bool) :
    onMotion s ⟨some a, p, w, ok⟩ =
      (if pouring (coerceVec a) then
        playPour ok
          (if p - s.lastStillCheck > 120 then
            { s with lastG := coerceVec a,
                     still := decide (l1delta (coerceVec a) s.lastG < 0.25),
                     lastStillCheck := p }
           else { s with lastG := coerceVec a }) w
       else
        (if p - s.lastStillCheck > 120 then
          { s with lastG := coerceVec a,
                   still := decide (l1delta (coerceVec a) s.lastG < 0.25),
                   lastStillCheck := p }
         else { s with lastG := coerceVec a })) := rfl

lemma playPour_debounced (ok : Bool) (s : ClassifierState) (now : ℚ)
    (h : now - s.lastPlay < 1000) : playPour ok s now = s := by
  unfold playPour
  rw [if_pos h]

lemma playPour_preserves (ok : Bool) (s : ClassifierState) (now : ℚ) :
    (playPour ok s now).lastG = s.lastG ∧ (playPour ok s now).still = s.still ∧
    (playPour ok s now).lastStillCheck = s.lastStillCheck ∧
    (playPour ok s now).hasAudioEl = s.hasAudioEl ∧
    (playPour ok s now).hasAudioCtx = s.hasAudioCtx := by
  unfold playPour
  by_cases h : now - s.lastPlay < 1000
  · rw [if_pos h]
    exact ⟨rfl, rfl, rfl, rfl, rfl⟩
  · rw [if_neg h]
    dsimp only
    split_ifs <;> exact ⟨rfl, rfl, rfl, rfl, rfl⟩

lemma playPour_fires (ok : Bool) (s : ClassifierState) (now : ℚ)
    (h : ¬ now - s.lastPlay < 1000) :
    (playPour ok s now).attempts = s.attempts + 1 ∧
    (playPour ok s now).lastPlay = now := by
  unfold playPour
  rw [if_neg h]
  dsimp only
  split_ifs <;> exact ⟨rfl, rfl⟩

lemma runBottle_congr (f g : ℕ → Bool) (tAt : ℕ → ℝ) (s0 : ModelScene) (n : ℕ)
    (h : ∀ k, k < n → f k = g k) :
    runBottle f tAt s0 n = runBottle g tAt s0 n := by
  induction n with
  | zero => rfl
  | succ m ih =>
    have hm := ih (fun k hk => h k (Nat.lt_succ_of_lt hk))
    simp [runBottle, hm, h m (Nat.lt_succ_self m)]

lemma animateBottle_true_ne_false (t : ℝ) (s : ModelScene) :
    animateBottle true t s ≠ animateBottle false t s := by
  intro h
  have h5 : (5e-3 : ℝ) = 0 := by
    simpa [animateBottle] using congrArg ModelScene.rotY h
  norm_num at h5

-- The claims.

set_option maxRecDepth 10000 in
set_option maxHeartbeats 1000000 in
/-- Claim C1: from the initial classifier state, twenty samples of
`(0, 0, 1)` at 100 ms intervals over 2 seconds keep the stillness flag true
in every reached state and trigger no playback attempt; the subsequent
sample `(-1, 0, 0.1)` has pitch above 60 degrees and records exactly one
playback attempt. -/
theorem claim1_end_to_end :
    ((c1Events.scanl onMotion c1Init).all fun s => s.still) = true ∧
    (c1Events.foldl onMotion c1Init).attempts = 0 ∧
    60 < (computePitchRoll (toRealVec (coerceVec ⟨some (-1), some 0, some (1/10)⟩))).pitchDeg ∧
    (onMotion (c1Events.foldl onMotion c1Init) c1Tilt).attempts = 1 := by
  refine ⟨?_, ?_, ?_, ?_⟩
  · norm_num [c1Events, c1Init, flatEv, List.scanl, onMotion, coerceVec, l1delta,
      pouring_iff, playPour]
  · norm_num [c1Events, c1Init, flatEv, List.foldl, onMotion, coerceVec, l1delta,
      pouring_iff, playPour]
  · exact (pouring_iff _).mpr (by norm_num [coerceVec])
  · norm_num [c1Events, c1Init, c1Tilt, flatEv, List.foldl, onMotion, coerceVec, l1delta,
      pouring_iff, playPour]

/-- Claim C2: an over-threshold sample (pitch above 60 degrees) arriving at
wall time `w` is a no-op for playback when `w - lastPlayTimestamp < 1000`
(no attempt performed, `lastPlay` unchanged), and triggers a fresh attempt
setting `lastPlay := w` when `w - lastPlayTimestamp ≥ 1001`. -/
theorem claim2_debounce (s : ClassifierState) (a : GVec (Option ℚ)) (p w : ℚ) (ok : Bool)
    (hp : 60 < (computePitchRoll (toRealVec (coerceVec a))).pitchDeg) :
    (w - s.lastPlay < 1000 →
      (onMotion s ⟨some a, p, w, ok⟩).attempts = s.attempts ∧
      (onMotion s ⟨some a, p, w, ok⟩).lastPlay = s.lastPlay) ∧
    (1001 ≤ w - s.lastPlay →
      (onMotion s ⟨some a, p, w, ok⟩).attempts = s.attempts + 1 ∧
      (onMotion s ⟨some a, p, w, ok⟩).lastPlay = w) := by
  have hpour : pouring (coerceVec a) := hp
  rw [onMotion_some, if_pos hpour]
  constructor
  · intro hw
    by_cases hwin : p - s.lastStillCheck > 120
    · rw [if_pos hwin, playPour_debounced]
      · exact ⟨rfl, rfl⟩
      · exact hw
    · rw [if_neg hwin, playPour_debounced]
      · exact ⟨rfl, rfl⟩
      · exact hw
  · intro hw
    have hnlt : ¬ w - s.lastPlay < 1000 := by linarith
    by_cases hwin : p - s.lastStillCheck > 120
    · rw [if_pos hwin]
      exact playPour_fires ok _ w hnlt
    · rw [if_neg hwin]
      exact playPour_fires ok _ w hnlt

/-- Witness for C2 at concrete inputs: with `lastPlay = 5000`, a pouring
sample `(-1, 0, 0)` at wall time 5500 changes nothing, and one at wall time
6001 bumps the attempt count and moves `lastPlay`. -/
theorem claim2_debounce_witness :
    ((onMotion ⟨⟨0, 0, 1⟩, true, 0, 5000, true, true, 3, 2⟩
        ⟨some ⟨some (-1), some 0, some 0⟩, 0, 5500, true⟩).attempts = 3 ∧
      (onMotion ⟨⟨0, 0, 1⟩, true, 0, 5000, true, true, 3, 2⟩
        ⟨some ⟨some (-1), some 0, some 0⟩, 0, 5500, true⟩).lastPlay = 5000) ∧
    ((onMotion ⟨⟨0, 0, 1⟩, true, 0, 5000, true, true, 3, 2⟩
        ⟨some ⟨some (-1), some 0, some 0⟩, 0, 6001, true⟩).attempts = 4 ∧
      (onMotion ⟨⟨0, 0, 1⟩, true, 0, 5000, true, true, 3, 2⟩
        ⟨some ⟨some (-1), some 0, some 0⟩, 0, 6001, true⟩).lastPlay = 6001) := by
  have hp : 60 < (computePitchRoll (toRealVec (coerceVec
      ⟨some (-1), some 0, some 0⟩))).pitchDeg :=
    (pouring_iff _).mpr (by norm_num [coerceVec])
  constructor
  · exact (claim2_debounce ⟨⟨0, 0, 1⟩, true, 0, 5000, true, true, 3, 2⟩
      ⟨some (-1), some 0, some 0⟩ 0 5500 true hp).1 (by norm_num)
  · exact (claim2_debounce ⟨⟨0, 0, 1⟩, true, 0, 5000, true, true, 3, 2⟩
      ⟨some (-1), some 0, some 0⟩ 0 6001 true hp).2 (by norm_num)

/-- Claim C3: on a sample with gravity present, `lastVector` is updated
unconditionally; the stillness flag and check timestamp are rewritten
exactly when more than 120 ms have elapsed since the last check, the flag
becoming `delta < 0.25` for the L1 delta against the previous `lastVector`;
inside the window both keep their prior values. -/
theorem claim3_still_window (s : ClassifierState) (a : GVec (Option ℚ)) (p w : ℚ) (ok : Bool) :
    (onMotion s ⟨some a, p, w, ok⟩).lastG = coerceVec a ∧
    (p - s.lastStillCheck > 120 →
      (onMotion s ⟨some a, p, w, ok⟩).still = decide (l1delta (coerceVec a) s.lastG < 0.25) ∧
      (onMotion s ⟨some a, p, w, ok⟩).lastStillCheck = p) ∧
    (¬ p - s.lastStillCheck > 120 →
      (onMotion s ⟨some a, p, w, ok⟩).still = s.still ∧
      (onMotion s ⟨some a, p, w, ok⟩).lastStillCheck = s.lastStillCheck) := by
  rw [onMotion_some]
  by_cases hwin : p - s.lastStillCheck > 120
  · rw [if_pos hwin]
    by_cases hpour : pouring (coerceVec a)
    · rw [if_pos hpour]
      obtain ⟨e1, e2, e3, -, -⟩ := playPour_preserves ok
        { s with lastG := coerceVec a,
                 still := decide (l1delta (coerceVec a) s.lastG < 0.25),
                 lastStillCheck := p } w
      exact ⟨by rw [e1], fun _ => ⟨by rw [e2], by rw [e3]⟩, fun hc => absurd hwin hc⟩
    · rw [if_neg hpour]
      exact ⟨rfl, fun _ => ⟨rfl, rfl⟩, fun hc => absurd hwin hc⟩
  · rw [if_neg hwin]
    by_cases hpour : pouring (coerceVec a)
    · rw [if_pos hpour]
      obtain ⟨e1, e2, e3, -, -⟩ := playPour_preserves ok
        { s with lastG := coerceVec a } w
      exact ⟨by rw [e1], fun hc => absurd hc hwin, fun _ => ⟨by rw [e2], by rw [e3]⟩⟩
    · rw [if_neg hpour]
      exact ⟨rfl, fun hc => absurd hc hwin, fun _ => ⟨rfl, rfl⟩⟩

/-- Witness for C3 at concrete inputs: with `lastStillCheck = 0` a sample
`(0, 0, 0.1)` at 200 ms rewrites the flag (delta `0.1 < 0.25`, so true, from
a prior false) and the timestamp; the same sample at 100 ms leaves both
untouched. -/
theorem claim3_still_window_witness :
    ((onMotion ⟨⟨0, 0, 0⟩, false, 0, 0, true, true, 0, 0⟩
        ⟨some ⟨some 0, some 0, some (1/10)⟩, 200, 1000000, true⟩).lastG = ⟨0, 0, 1/10⟩ ∧
      (onMotion ⟨⟨0, 0, 0⟩, false, 0, 0, true, true, 0, 0⟩
        ⟨some ⟨some 0, some 0, some (1/10)⟩, 200, 1000000, true⟩).still = true ∧
      (onMotion ⟨⟨0, 0, 0⟩, false, 0, 0, true, true, 0, 0⟩
        ⟨some ⟨some 0, some 0, some (1/10)⟩, 200, 1000000, true⟩).lastStillCheck = 200) ∧
    ((onMotion ⟨⟨0, 0, 0⟩, false, 0, 0, true, true, 0, 0⟩
        ⟨some ⟨some 0, some 0, some (1/10)⟩, 100, 1000000, true⟩).still = false ∧
      (onMotion ⟨⟨0, 0, 0⟩, false, 0, 0, true, true, 0, 0⟩
        ⟨some ⟨some 0, some 0, some (1/10)⟩, 100, 1000000, true⟩).lastStillCheck = 0) := by
  obtain ⟨h1, h2, -⟩ := claim3_still_window ⟨⟨0, 0, 0⟩, false, 0, 0, true, true, 0, 0⟩
    ⟨some 0, some 0, some (1/10)⟩ 200 1000000 true
  obtain ⟨-, -, h3⟩ := claim3_still_window ⟨⟨0, 0, 0⟩, false, 0, 0, true, true, 0, 0⟩
    ⟨some 0, some 0, some (1/10)⟩ 100 1000000 true
  obtain ⟨h2a, h2b⟩ := h2 (by norm_num)
  obtain ⟨h3a, h3b⟩ := h3 (by norm_num)
  refine ⟨⟨by rw [h1]; rfl, ?_, h2b⟩, h3a, h3b⟩
  rw [h2a]
  norm_num [coerceVec, l1delta, abs_of_nonneg]

/-- Claim C4: the pitch sign convention. The flat face-up vector `(0, 0, 1)`
yields pitch exactly 0 degrees and the fully tipped-forward vector
`(-1, 0, 0)` yields pitch exactly 90 degrees. -/
theorem claim4_pitch_sign :
    (computePitchRoll ⟨0, 0, 1⟩).pitchDeg = 0 ∧
    (computePitchRoll ⟨-1, 0, 0⟩).pitchDeg = 90 := by
  constructor
  · simp [computePitchRoll, normDivisor, magnitude_001, atan2_zero_one]
  · simp [computePitchRoll, normDivisor, magnitude_neg100]
    rw [atan2_one_zero]
    field_simp
    ring

/-- Claim C5: on a gravity vector of magnitude 0 the normalization divisor
is floored at 1 — in particular it is nonzero, so no division by zero
happens — and the computed pitch is the well-defined number 0. -/
theorem claim5_zero_magnitude (g : GVec ℝ) (h : magnitude g = 0) :
    normDivisor g = 1 ∧ normDivisor g ≠ 0 ∧ (computePitchRoll g).pitchDeg = 0 := by
  obtain ⟨hx, hy, hz⟩ := magnitude_eq_zero h
  refine ⟨by rw [normDivisor, if_pos h], by rw [normDivisor, if_pos h]; norm_num, ?_⟩
  rw [computePitchRoll_pitchDeg, normDivisor, if_pos h, hx, hy, hz]
  norm_num [atan2_zero_zero]

/-- Witness for C5 at the zero vector. -/
theorem claim5_zero_magnitude_witness :
    magnitude ⟨0, 0, 0⟩ = 0 ∧ normDivisor ⟨0, 0, 0⟩ = 1 ∧
    normDivisor ⟨0, 0, 0⟩ ≠ 0 ∧ (computePitchRoll ⟨0, 0, 0⟩).pitchDeg = 0 := by
  have h0 : magnitude ⟨0, 0, 0⟩ = 0 := by simp [magnitude]
  obtain ⟨h1, h2, h3⟩ := claim5_zero_magnitude ⟨0, 0, 0⟩ h0
  exact ⟨h0, h1, h2, h3⟩

/-- Claim C6 counterexample: in the `part_001` bottle loop a non-still frame
does not reset the vertical offset to the resting baseline (0 for the
bottle, which bobs around the origin): starting from vertical offset 1/100,
a frame with stillness false leaves the offset at 1/100 ≠ 0. -/
theorem claim6_counterexample :
    (animateBottle false 0 ⟨0, 1/100, 0⟩).posY = 1/100 ∧
    (animateBottle false 0 ⟨0, 1/100, 0⟩).posY ≠ 0 := by
  have h : (animateBottle false 0 ⟨0, 1/100, 0⟩).posY = 1/100 := by
    simp [animateBottle]
  exact ⟨h, by rw [h]; norm_num⟩

/-- Claim C6 (amended): in the `part_002` model loop, a frame on which the
stillness accessor returns false leaves the rotation unchanged, resets the
vertical position to the resting baseline `baseY`, and still renders; in the
`part_001` bottle loop such a frame leaves rotation and vertical position
both unchanged (no baseline reset) and still renders. -/
theorem claim6_notstill_frame (baseY t : ℝ) (s : ModelScene) :
    animateModel baseY false t s = ⟨s.rotY, baseY, s.renders + 1⟩ ∧
    animateBottle false t s = ⟨s.rotY, s.posY, s.renders + 1⟩ := by
  constructor <;> simp [animateModel, animateBottle]

/-- Claim C7 counterexample: the active `Scene.tsx` render loop never
invokes `getIsStill`; at a concrete frame the tick outcome is identical
whether the accessor would return true or false, so the frame's animation
decision does not depend on its value. -/
theorem claim7_counterexample :
    tick true 50 ⟨0, 0, 0⟩ = tick false 50 ⟨0, 0, 0⟩ := rfl

/-- Claim C7 (amended): the `part_001` three.js loop samples the stillness
accessor afresh on every frame: the state after frame `n + 1` depends only
on the accessor values at frames `0..n` (two accessor streams agreeing up to
`n` produce the same state), and the frame decision genuinely depends on the
same-frame value (flipping it always changes the frame's outcome); the
active image-sequence `Scene.tsx` loop, by contrast, ignores the accessor. -/
theorem claim7_fresh_sampling (f g : ℕ → Bool) (tAt : ℕ → ℝ) (s0 : ModelScene) (n : ℕ)
    (h : ∀ k, k ≤ n → f k = g k) :
    runBottle f tAt s0 (n + 1) = runBottle g tAt s0 (n + 1) ∧
    animateBottle true (tAt n) (runBottle f tAt s0 n) ≠
      animateBottle false (tAt n) (runBottle f tAt s0 n) := by
  refine ⟨?_, animateBottle_true_ne_false _ _⟩
  exact runBottle_congr f g tAt s0 (n + 1) (fun k hk => h k (Nat.lt_succ_iff.mp hk))

/-- Witness for the amended C7 at concrete inputs. -/
theorem claim7_fresh_sampling_witness :
    (runBottle (fun _ => true) (fun _ => 0) ⟨0, 0, 0⟩ 1 =
      runBottle (fun k => decide (k = 0)) (fun _ => 0) ⟨0, 0, 0⟩ 1) ∧
    animateBottle true 0 (runBottle (fun _ => true) (fun _ => 0) ⟨0, 0, 0⟩ 0) ≠
      animateBottle false 0 (runBottle (fun _ => true) (fun _ => 0) ⟨0, 0, 0⟩ 0) := by
  have h := claim7_fresh_sampling (fun _ => true) (fun k => decide (k = 0)) (fun _ => 0)
    ⟨0, 0, 0⟩ 0 (fun k hk => by
      have hk0 : k = 0 := Nat.le_zero.mp hk
      subst hk0
      simp)
  exact h

lemma normDivisor_ne_zero (g : GVec ℝ) : normDivisor g ≠ 0 := by
  unfold normDivisor
  split_ifs with h
  · norm_num
  · exact h

/-- Claim C8: pitch is independent of device roll. Replacing `(y, z)` by any
`(y', z')` with the same sum of squares leaves `pitchDeg` unchanged. -/
theorem claim8_roll_independence (x y z yv zv : ℝ) (h : yv * yv + zv * zv = y * y + z * z) :
    (computePitchRoll ⟨x, yv, zv⟩).pitchDeg = (computePitchRoll ⟨x, y, z⟩).pitchDeg := by
  have hmag : magnitude ⟨x, yv, zv⟩ = magnitude ⟨x, y, z⟩ := by
    unfold magnitude
    dsimp only
    congr 1
    linarith
  have hnd : normDivisor ⟨x, yv, zv⟩ = normDivisor ⟨x, y, z⟩ := by
    unfold normDivisor
    rw [hmag]
  rw [computePitchRoll_pitchDeg, computePitchRoll_pitchDeg]
  show atan2 (-(x / normDivisor ⟨x, yv, zv⟩))
      (Real.sqrt ((yv / normDivisor ⟨x, yv, zv⟩) * (yv / normDivisor ⟨x, yv, zv⟩) +
        (zv / normDivisor ⟨x, yv, zv⟩) * (zv / normDivisor ⟨x, yv, zv⟩))) * 180 / Real.pi =
    atan2 (-(x / normDivisor ⟨x, y, z⟩))
      (Real.sqrt ((y / normDivisor ⟨x, y, z⟩) * (y / normDivisor ⟨x, y, z⟩) +
        (z / normDivisor ⟨x, y, z⟩) * (z / normDivisor ⟨x, y, z⟩))) * 180 / Real.pi
  rw [hnd]
  have hndz : normDivisor ⟨x, y, z⟩ ≠ 0 := normDivisor_ne_zero _
  have hin : (yv / normDivisor ⟨x, y, z⟩) * (yv / normDivisor ⟨x, y, z⟩) +
      (zv / normDivisor ⟨x, y, z⟩) * (zv / normDivisor ⟨x, y, z⟩) =
      (y / normDivisor ⟨x, y, z⟩) * (y / normDivisor ⟨x, y, z⟩) +
      (z / normDivisor ⟨x, y, z⟩) * (z / normDivisor ⟨x, y, z⟩) := by
    field_simp
    linarith
  rw [hin]

/-- Witness for C8: `(5, 0)` and `(3, 4)` have equal sums of squares, and the
pitch of `(1, 5, 0)` equals the pitch of `(1, 3, 4)`. -/
theorem claim8_roll_independence_witness :
    ((5 : ℝ) * 5 + 0 * 0 = 3 * 3 + 4 * 4) ∧
    (computePitchRoll ⟨1, 5, 0⟩).pitchDeg = (computePitchRoll ⟨1, 3, 4⟩).pitchDeg :=
  ⟨by norm_num, claim8_roll_independence 1 3 4 5 0 (by norm_num)⟩

/-- Claim C9: a `playPour` call passing the debounce check stamps
`lastPlay := now` before any playback path; with neither the audio element
nor the audio context available it produces no sound, yet the debounce
window is consumed: every further call within 1000 ms returns the state
unchanged. -/
theorem claim9_uninit_audio (s : ClassifierState) (now : ℚ) (ok : Bool)
    (hEl : s.hasAudioEl = false) (hCtx : s.hasAudioCtx = false)
    (hdb : ¬ now - s.lastPlay < 1000) :
    (playPour ok s now).lastPlay = now ∧
    (playPour ok s now).sounds = s.sounds ∧
    (playPour ok s now).attempts = s.attempts + 1 ∧
    ∀ t ok2, t - now < 1000 → playPour ok2 (playPour ok s now) t = playPour ok s now := by
  have hres : playPour ok s now = { s with lastPlay := now, attempts := s.attempts + 1 } := by
    unfold playPour
    rw [if_neg hdb]
    dsimp only
    simp [hEl, hCtx]
  rw [hres]
  refine ⟨rfl, rfl, rfl, fun t ok2 ht => ?_⟩
  exact playPour_debounced ok2 _ t ht

/-- Witness for C9: from a fresh state with no audio subsystem, a call at
wall time 2000 stamps the debounce window without sound, and a call at 2500
is a no-op. -/
theorem claim9_uninit_audio_witness :
    (playPour true ⟨⟨0, 0, 0⟩, true, 0, 0, false, false, 0, 0⟩ 2000).lastPlay = 2000 ∧
    (playPour true ⟨⟨0, 0, 0⟩, true, 0, 0, false, false, 0, 0⟩ 2000).sounds = 0 ∧
    (playPour true ⟨⟨0, 0, 0⟩, true, 0, 0, false, false, 0, 0⟩ 2000).attempts = 1 ∧
    playPour false (playPour true ⟨⟨0, 0, 0⟩, true, 0, 0, false, false, 0, 0⟩ 2000) 2500 =
      playPour true ⟨⟨0, 0, 0⟩, true, 0, 0, false, false, 0, 0⟩ 2000 := by
  obtain ⟨h1, h2, h3, h4⟩ := claim9_uninit_audio ⟨⟨0, 0, 0⟩, true, 0, 0, false, false, 0, 0⟩
    2000 true rfl rfl (by norm_num)
  exact ⟨h1, h2, h3, h4 2500 false (by norm_num)⟩

/-- Claim C10: an event whose `accelerationIncludingGravity` components are
all null is not discarded: it behaves exactly like a zero-vector sample,
updating `lastVector` to `(0, 0, 0)` — unlike an event with the whole
object absent, which leaves the state untouched. -/
theorem claim10_null_coercion (s : ClassifierState) (p w : ℚ) (ok : Bool) :
    onMotion s ⟨some ⟨none, none, none⟩, p, w, ok⟩ =
      onMotion s ⟨some ⟨some 0, some 0, some 0⟩, p, w, ok⟩ ∧
    (onMotion s ⟨some ⟨none, none, none⟩, p, w, ok⟩).lastG = ⟨0, 0, 0⟩ ∧
    onMotion s ⟨none, p, w, ok⟩ = s := by
  refine ⟨rfl, ?_, rfl⟩
  have hnp : ¬ pouring (⟨0, 0, 0⟩ : GVec ℚ) := by
    rw [pouring_iff]
    norm_num
  rw [onMotion_some, show coerceVec ⟨none, none, none⟩ = (⟨0, 0, 0⟩ : GVec ℚ) from rfl,
    if_neg hnp]
  split_ifs <;> rfl
